import Mathlib

/-!
Verification of the mattress customer-support agent system
(`src/main.py`, `src/agents/*.py`, `src/database/data_loader.py`).

The pure data manipulations (product-reference resolution, review
filtering and statistics, order and review creation, conversation-history
bookkeeping) are embedded directly from the Python source.  External I/O
(the LLM chat-completion calls and the MongoDB driver) is abstracted:
an LLM or pipeline outcome appears as an `Except String` value, and each
Mongo collection as a Lean list of documents, with the exact find/filter
semantics of the queries the code issues.
-/

namespace MongoAgents

/-! ### String primitives mirroring Python string semantics (ASCII data) -/

/-- Python `str.startswith`: does the second list start with the first? -/
def listStarts : List Char → List Char → Bool
  | [], _ => true
  | _ :: _, [] => false
  | a :: as, b :: bs => a == b && listStarts as bs

/-- Python substring test `needle in haystack`. -/
def listHasSub (needle : List Char) : List Char → Bool
  | [] => needle.isEmpty
  | b :: bs => listStarts needle (b :: bs) || listHasSub needle bs

/-- `startswith` on strings (case-sensitive). -/
def strStarts (pre s : String) : Bool := listStarts pre.data s.data

/-- `needle in haystack` on strings. -/
def strHasSub (needle s : String) : Bool := listHasSub needle.data s.data

/-- Python `str.lower()` (ASCII range, which covers the catalog data). -/
def lowerStr (s : String) : String := ⟨s.data.map Char.toLower⟩

/-- Python `str.strip()`: drop leading and trailing whitespace. -/
def stripStr (s : String) : String :=
  ⟨((s.data.dropWhile Char.isWhitespace).reverse.dropWhile Char.isWhitespace).reverse⟩

/-- Python `str.replace`: replace every non-overlapping occurrence of `pat`,
left to right.  Fuel-based structural recursion (fuel starts at the list
length, and every step consumes at least one character) so the kernel can
evaluate it. -/
def replaceAllAux (pat rep : List Char) : Nat → List Char → List Char
  | 0, l => l
  | _ + 1, [] => []
  | fuel + 1, c :: rest =>
    if listStarts pat (c :: rest) then
      rep ++ replaceAllAux pat rep fuel (List.drop pat.length (c :: rest))
    else
      c :: replaceAllAux pat rep fuel rest

/-- Python `s.replace(pat, rep)` (for the nonempty patterns the code uses). -/
def replaceAll (s pat rep : String) : String :=
  if pat.data.isEmpty then s else ⟨replaceAllAux pat.data rep.data s.data.length s.data⟩

/-- Python `str.split()` with no argument: split on whitespace runs,
dropping empty pieces.  `acc` holds the current word reversed. -/
def splitWSAux : List Char → List Char → List String
  | [], acc => if acc.isEmpty then [] else [⟨acc.reverse⟩]
  | c :: rest, acc =>
    if c.isWhitespace then
      if acc.isEmpty then splitWSAux rest [] else (⟨acc.reverse⟩ : String) :: splitWSAux rest []
    else splitWSAux rest (c :: acc)

/-- Python `s.split()`. -/
def splitWS (s : String) : List String := splitWSAux s.data []

/-- Python `l[-n:]`: the last `n` elements (all of `l` when it is shorter). -/
def takeLast {α : Type} (n : Nat) (l : List α) : List α := l.drop (l.length - n)

/-! ### Data model -/

/-- A product document as seeded by `DataLoader.load_products`
(`src/database/data_loader.py`).  `price` is exact (`ℚ`) in place of the
source float; `created_at` (stamped at load time and unused by the
operations modelled here) is omitted. -/
structure Product where
  id : String
  name : String
  price : ℚ
  type : String
  height : String
  construction_layers : List String
  key_features : List String
  best_for : List String
  available_sizes : List String
  warranty : String
  trial_period : String
deriving Repr, DecidableEq

/-- The six products seeded by `DataLoader.load_products`, in insertion
order (which is the order `find({})` returns them in). -/
def seedProducts : List Product := [
  { id := "ultra-comfort-mattress",
    name := "Ultra Comfort Mattress",
    price := 1299,
    type := "Hybrid (Memory Foam + Pocket Coils)",
    height := "12 inches",
    construction_layers := ["2\" Cooling Gel Memory Foam Top Layer",
      "2\" Responsive Comfort Foam", "2\" Transition Layer",
      "6\" Pocket Coil System (1,024 coils in Queen size)"],
    key_features := ["Advanced temperature regulation with cooling gel technology",
      "Edge-to-edge support system", "Motion isolation technology",
      "Breathable quilted cover with silver-infused fibers",
      "CertiPUR-US® certified foams", "Compatible with adjustable bed bases"],
    best_for := ["Hot sleepers", "Couples", "Back and stomach sleepers",
      "Those needing extra edge support"],
    available_sizes := ["Twin", "Twin XL", "Full", "Queen", "King", "California King"],
    warranty := "15 years",
    trial_period := "100 nights" },
  { id := "performance-sport",
    name := "Performance Sport Mattress",
    price := 1499,
    type := "Hybrid (Copper-Infused Memory Foam + Pocket Coils)",
    height := "13 inches",
    construction_layers := ["3\" Copper-Infused Memory Foam",
      "2\" High-Density Support Foam",
      "8\" Zoned Pocket Coil System (1,560 coils in Queen size)"],
    key_features := ["Copper-infused memory foam for muscle recovery",
      "Zoned support for athletic bodies", "Enhanced pressure relief",
      "Superior temperature regulation", "Antimicrobial protection",
      "Reinforced edge support"],
    best_for := ["Athletes and active individuals", "Those with muscle soreness",
      "Hot sleepers", "Those needing targeted support"],
    available_sizes := ["Twin XL", "Full", "Queen", "King", "California King"],
    warranty := "20 years",
    trial_period := "120 nights" },
  { id := "eco-green",
    name := "Eco Green Mattress",
    price := 1199,
    type := "Organic Latex Hybrid",
    height := "11 inches",
    construction_layers := ["3\" Organic Latex",
      "2\" Organic Cotton and Wool Blend", "6\" Recycled Steel Coil System"],
    key_features := ["100% organic and natural materials", "GOTS and GOLS certified",
      "Chemical-free construction", "Naturally temperature regulating",
      "Biodegradable and recyclable", "Sustainably sourced materials"],
    best_for := ["Eco-conscious consumers", "Chemical-sensitive individuals",
      "Those preferring natural materials", "All sleep positions"],
    available_sizes := ["Twin", "Twin XL", "Full", "Queen", "King"],
    warranty := "25 years",
    trial_period := "180 nights" },
  { id := "dream-sleep",
    name := "Dream Sleep Mattress",
    price := 899,
    type := "All-Foam",
    height := "10 inches",
    construction_layers := ["2\" Memory Foam Comfort Layer",
      "2\" Adaptive Support Foam", "6\" High-Density Base Foam"],
    key_features := ["Pressure-relieving memory foam",
      "Open-cell foam technology for better airflow",
      "Removable and washable cover", "Zero motion transfer",
      "CertiPUR-US® certified foams", "Medium-firm feel (6/10 on firmness scale)"],
    best_for := ["Side sleepers", "Light to average weight sleepers",
      "Those seeking motion isolation", "Budget-conscious shoppers"],
    available_sizes := ["Twin", "Full", "Queen", "King"],
    warranty := "10 years",
    trial_period := "100 nights" },
  { id := "luxury-cloud",
    name := "Luxury Cloud Mattress",
    price := 1899,
    type := "Hybrid (Latex + Memory Foam + Coils)",
    height := "14 inches",
    construction_layers := ["2\" Natural Latex Top Layer",
      "2\" Gel-Infused Memory Foam", "2\" Dynamic Response Foam",
      "8\" Zoned Support Coil System (1,744 coils in Queen size)"],
    key_features := ["Organic cotton and wool cover",
      "Natural latex for durability and bounce", "Zoned lumbar support",
      "Enhanced edge support system", "Temperature neutral design",
      "Antimicrobial properties", "GOTS and GOLS certified materials"],
    best_for := ["Luxury seekers", "Those with back pain",
      "Combination sleepers", "Eco-conscious consumers"],
    available_sizes := ["Twin XL", "Full", "Queen", "King", "California King", "Split King"],
    warranty := "25 years",
    trial_period := "180 nights" },
  { id := "essential-plus",
    name := "Essential Plus Mattress",
    price := 699,
    type := "All-Foam",
    height := "8 inches",
    construction_layers := ["1.5\" Comfort Foam", "2\" Pressure Relief Foam",
      "4.5\" Support Core Foam"],
    key_features := ["Budget-friendly option", "Medium-firm support",
      "Basic cooling properties", "Lightweight and easy to move",
      "CertiPUR-US® certified foams", "Ideal for guest rooms"],
    best_for := ["Guest rooms", "Children's rooms",
      "Temporary living situations", "Budget shoppers"],
    available_sizes := ["Twin", "Full", "Queen"],
    warranty := "5 years",
    trial_period := "60 nights" }]

/-! ### Product-reference resolution (`ProductDetailsAgent`) -/

/-- Cache entry built by `ProductDetailsAgent._get_available_products`. -/
structure CachedProduct where
  id : String
  name : String
  name_normalized : String
deriving Repr, DecidableEq

/-- `_get_available_products`: id, name, and lowercased name per product. -/
def availableProducts (products : List Product) : List CachedProduct :=
  products.map fun p => ⟨p.id, p.name, lowerStr p.name⟩

/-- `reference.lower().strip()` as computed by `_find_matching_product`. -/
def normalizeRef (r : String) : String := stripStr (lowerStr r)

/-- First loop of `_find_matching_product`: exact (case-insensitive)
match on id, then on full name, for one product. -/
def exactMatch (refNorm : String) (p : CachedProduct) : Bool :=
  refNorm == p.id || refNorm == p.name_normalized

/-- `reference_kebab`: spaces and underscores replaced by hyphens. -/
def kebabRef (refNorm : String) : String :=
  replaceAll (replaceAll refNorm " " "-") "_" "-"

/-- `reference_without_mattress`: every occurrence of `-mattress` removed
from the kebab form. -/
def refNoMattress (refNorm : String) : String :=
  replaceAll (kebabRef refNorm) "-mattress" ""

/-- Second loop of `_find_matching_product`, for one product: hyphenized
reference contained in the id, else ≥ 50% word overlap between the
reference's and the name's lowercase token sets. -/
def secondPassMatch (refNorm : String) (p : CachedProduct) : Bool :=
  strHasSub (refNoMattress refNorm) p.id ||
    (let nameParts := (splitWS p.name_normalized).dedup
     let refParts := (splitWS refNorm).dedup
     decide (refParts.length ≤ 2 * (nameParts.filter (fun w => refParts.contains w)).length))

/-- `ProductDetailsAgent._find_matching_product`: empty reference resolves
to nothing; otherwise one pass over the catalog checking the exact matches
(id, then name, per product), then a second pass checking the partial
matches (id containment, then word overlap, per product). -/
def findMatchingProduct (products : List Product) (product_reference : String) : Option String :=
  if product_reference = "" then none
  else
    let refNorm := normalizeRef product_reference
    let avail := availableProducts products
    match avail.find? (fun p => exactMatch refNorm p) with
    | some p => some p.id
    | none => (avail.find? (fun p => secondPassMatch refNorm p)).map fun p => p.id

/-- The resolution procedure as the specification words it: the same four
matching tests, but each applied to the whole catalog in strict global
precedence order (all ids, then all names, then all containments, then
all overlaps).  Stated for comparison with `findMatchingProduct`, which
interleaves the tests per product. -/
def findMatchingProductStrict (products : List Product) (product_reference : String) : Option String :=
  if product_reference = "" then none
  else
    let refNorm := normalizeRef product_reference
    let avail := availableProducts products
    match avail.find? (fun p => refNorm == p.id) with
    | some p => some p.id
    | none =>
      match avail.find? (fun p => refNorm == p.name_normalized) with
      | some p => some p.id
      | none =>
        match avail.find? (fun p => strHasSub (refNoMattress refNorm) p.id) with
        | some p => some p.id
        | none =>
          (avail.find? (fun p =>
            let nameParts := (splitWS p.name_normalized).dedup
            let refParts := (splitWS refNorm).dedup
            decide (refParts.length ≤ 2 * (nameParts.filter (fun w => refParts.contains w)).length))).map
            fun p => p.id

/-- A two-product catalog exercising cross-product step ordering: the
reference "foo" equals the first product's name and the second product's
id.  Fields other than id and name are irrelevant to resolution. -/
def orderingCatalog : List Product := [
  { id := "x", name := "Foo", price := 1, type := "t", height := "h",
    construction_layers := [], key_features := [], best_for := [],
    available_sizes := [], warranty := "w", trial_period := "tp" },
  { id := "foo", name := "Bar", price := 1, type := "t", height := "h",
    construction_layers := [], key_features := [], best_for := [],
    available_sizes := [], warranty := "w", trial_period := "tp" }]

/-! ### Shared Mongo-query helpers -/

/-- `find_one({"id": pid})` on the products collection: first product with
exactly this id. -/
def findProductById (products : List Product) (pid : String) : Option Product :=
  products.find? fun p => p.id == pid

/-- `find_one({"name": {"$regex": f"^{pid}", "$options": "i"}})`: first
product whose name starts with the reference, case-insensitively (regex
metacharacters are not modelled; the references used here contain none). -/
def findProductByNameCI (products : List Product) (pid : String) : Option Product :=
  products.find? fun p => listStarts (lowerStr pid).data (lowerStr p.name).data

/-! ### Reviews (`ReviewsAgent`, src/agents/reviews_agent.py) -/

/-- A review document.  Fields other than `product_id` are optional to
mirror `dict.get` with defaults: seeded reviews carry `customer_id` but no
`created_at`, documents written by `create_review` the reverse. -/
structure ReviewDoc where
  product_id : String
  customer_id : Option String
  rating : Option Int
  content : Option String
  verified_purchase : Option Bool
  created_at : Option String
deriving Repr, DecidableEq

/-- `r.get("rating", 0)`. -/
def docRating (r : ReviewDoc) : Int := r.rating.getD 0

/-- `find({"product_id": pid})` on the reviews collection. -/
def reviewsForProduct (reviews : List ReviewDoc) (pid : String) : List ReviewDoc :=
  reviews.filter fun r => r.product_id == pid

/-- The shared fetch step of `get_product_reviews` and `get_review_stats`:
reviews by exact product id, else resolve the reference as a
case-insensitive name prefix and retry with the resolved id. -/
def fetchReviews (products : List Product) (reviews : List ReviewDoc)
    (product_id : String) : List ReviewDoc :=
  let byId := reviewsForProduct reviews product_id
  if byId.isEmpty then
    match findProductByNameCI products product_id with
    | some p => reviewsForProduct reviews p.id
    | none => []
  else byId

/-- One formatted review as `get_product_reviews` returns it. -/
structure FormattedReview where
  rating : Int
  content : String
  verified_purchase : Bool
  customer_id : String
deriving Repr, DecidableEq

/-- The per-review formatting step of `get_product_reviews`. -/
def formatReview (r : ReviewDoc) : FormattedReview :=
  { rating := docRating r,
    content := r.content.getD "",
    verified_purchase := r.verified_purchase.getD false,
    customer_id := r.customer_id.getD "anonymous" }

/-- The response shape of `get_product_reviews`. -/
structure ReviewsResponse where
  product_id : String
  total_reviews : Nat
  average_rating : ℚ
  filter_type : String
  reviews : List FormattedReview
deriving Repr, DecidableEq

/-- `ReviewsAgent.get_product_reviews`: fetch, filter (positive = rating
≥ 4, negative = rating ≤ 2, anything else = all), then report the count,
the average over the filtered list (0 when empty), and the formatted
filtered reviews. -/
def getProductReviews (products : List Product) (reviews : List ReviewDoc)
    (product_id filter_type : String) : ReviewsResponse :=
  let fetched := fetchReviews products reviews product_id
  let filtered :=
    if filter_type = "positive" then fetched.filter (fun r => decide (4 ≤ docRating r))
    else if filter_type = "negative" then fetched.filter (fun r => decide (docRating r ≤ 2))
    else fetched
  { product_id := product_id,
    total_reviews := filtered.length,
    average_rating :=
      if filtered.isEmpty then 0
      else ((filtered.map docRating).sum : ℚ) / (filtered.length : ℚ),
    filter_type := filter_type,
    reviews := filtered.map formatReview }

/-- The `rating_distribution` object of `get_review_stats` (`5_star` …
`1_star` in the source; Lean field names cannot start with a digit). -/
structure RatingDistribution where
  five_star : Nat
  four_star : Nat
  three_star : Nat
  two_star : Nat
  one_star : Nat
deriving Repr, DecidableEq

/-- The two possible `get_review_stats` payloads: the zero-count
"no reviews" message, or the statistics object. -/
inductive ReviewStatsResult where
  | noReviews (product_id : String) (total_reviews : Nat) (message : String)
  | stats (product_id : String) (total_reviews : Nat) (average_rating : ℚ)
      (rating_distribution : RatingDistribution) (verified_purchases : Nat)
deriving Repr, DecidableEq

/-- `ReviewsAgent.get_review_stats`. -/
def getReviewStats (products : List Product) (reviews : List ReviewDoc)
    (product_id : String) : ReviewStatsResult :=
  let fetched := fetchReviews products reviews product_id
  if fetched.isEmpty then
    .noReviews product_id 0 "No reviews found for this product"
  else
    let ratings := fetched.map docRating
    .stats product_id fetched.length
      ((ratings.sum : ℚ) / (fetched.length : ℚ))
      { five_star := (ratings.filter (fun r => r == 5)).length,
        four_star := (ratings.filter (fun r => r == 4)).length,
        three_star := (ratings.filter (fun r => r == 3)).length,
        two_star := (ratings.filter (fun r => r == 2)).length,
        one_star := (ratings.filter (fun r => r == 1)).length }
      ((fetched.filter (fun r => r.verified_purchase.getD false)).length)

/-- The success payload of `create_review`. -/
structure CreateReviewResponse where
  success : Bool
  product_id : String
  rating : Int
  content : String
  message : String
deriving Repr, DecidableEq

/-- The product-id resolution inside `create_review`: exact id, else
case-insensitive name-prefix match (in which case the matched product's
id replaces the reference). -/
def resolveReviewPid (products : List Product) (product_id : String) : Option String :=
  match findProductById products product_id with
  | some _ => some product_id
  | none => (findProductByNameCI products product_id).map fun p => p.id

/-- `ReviewsAgent.create_review`.  The rating is validated first (raising
`ValueError("Rating must be between 1 and 5")`), then the product is
resolved (raising `ValueError(f"Product not found: ...")`), then the
document is inserted.  Raised errors are the `.error` branch; the second
component is the reviews collection after the call (`insert_one` is
modelled as always succeeding, as the driver returns an id whenever no
exception is raised).  `now` stands for `datetime.now().isoformat()`. -/
def createReview (products : List Product) (reviews : List ReviewDoc)
    (product_id : String) (rating : Int) (content : String) (now : String) :
    Except String CreateReviewResponse × List ReviewDoc :=
  if 1 ≤ rating ∧ rating ≤ 5 then
    match resolveReviewPid products product_id with
    | none => (.error ("Product not found: " ++ product_id), reviews)
    | some pid =>
      let doc : ReviewDoc :=
        { product_id := pid, customer_id := none, rating := some rating,
          content := some content, verified_purchase := some true,
          created_at := some now }
      (.ok { success := true, product_id := pid, rating := rating,
             content := content, message := "Review submitted successfully" },
       reviews ++ [doc])
  else (.error "Rating must be between 1 and 5", reviews)

/-! ### Orders (`OrdersAgent`, src/agents/orders_agent.py) -/

/-- An order document as `create_order` writes it.  `created_at` holds the
`%Y%m%d%H%M%S` timestamp string the model threads through in place of
`datetime.utcnow()`. -/
structure OrderDoc where
  order_id : String
  product_id : String
  product_name : String
  size : String
  quantity : Int
  price : ℚ
  total : ℚ
  status : String
  delivery_address : String
  payment_method : String
  created_at : String
deriving Repr, DecidableEq

/-- The success payload of `create_order`. -/
structure OrderResponse where
  success : Bool
  order_id : String
  total : ℚ
  status : String
  delivery_address : String
  payment_method : String
  estimated_delivery : String
deriving Repr, DecidableEq

/-- `OrdersAgent._generate_order_id`: `"UC"` followed by the last six
characters of the `%Y%m%d%H%M%S` UTC timestamp. -/
def generateOrderId (timestamp : String) : String :=
  "UC" ++ (⟨takeLast 6 timestamp.data⟩ : String)

/-- `OrdersAgent.create_order`: exact-id product lookup (no name
fallback), size-availability check, then order insertion.  Raised
`ValueError`s are the `.error` branch; the second component is the orders
collection after the call. -/
def createOrder (products : List Product) (orders : List OrderDoc)
    (product_id size delivery_address payment_method : String)
    (quantity : Int) (timestamp : String) :
    Except String OrderResponse × List OrderDoc :=
  match findProductById products product_id with
  | none => (.error ("Product not found: " ++ product_id), orders)
  | some product =>
    if product.available_sizes.contains size then
      let order : OrderDoc :=
        { order_id := generateOrderId timestamp, product_id := product_id,
          product_name := product.name, size := size, quantity := quantity,
          price := product.price, total := product.price * (quantity : ℚ),
          status := "confirmed", delivery_address := delivery_address,
          payment_method := payment_method, created_at := timestamp }
      (.ok { success := true, order_id := order.order_id, total := order.total,
             status := "confirmed", delivery_address := delivery_address,
             payment_method := payment_method,
             estimated_delivery := "5-7 business days" },
       orders ++ [order])
    else (.error ("Size " ++ size ++ " not available for " ++ product.name), orders)

/-! ### Product comparison (`ProductDetailsAgent.compare_products`) -/

/-- The cleaned product record built by `get_product_details` and
`compare_products` (same ten fields in both). -/
structure FormattedProduct where
  id : String
  name : String
  price : ℚ
  type : String
  construction_layers : List String
  key_features : List String
  best_for : List String
  available_sizes : List String
  warranty : String
  trial_period : String
deriving Repr, DecidableEq

/-- The formatting step shared by `get_product_details` and
`compare_products`. -/
def formatProduct (p : Product) : FormattedProduct :=
  { id := p.id, name := p.name, price := p.price, type := p.type,
    construction_layers := p.construction_layers, key_features := p.key_features,
    best_for := p.best_for, available_sizes := p.available_sizes,
    warranty := p.warranty, trial_period := p.trial_period }

/-- The `not_found` object of `compare_products`. -/
structure NotFoundInfo where
  products : List String
  available_products : List String
deriving Repr, DecidableEq

/-- The response shape of `compare_products`; `not_found` is the optional
key, present exactly when some reference did not resolve. -/
structure CompareResponse where
  total_products : Nat
  products : List FormattedProduct
  not_found : Option NotFoundInfo
deriving Repr, DecidableEq

/-- The accumulation loop of `compare_products`, returning the matched
formatted products and the unmatched references, each in input order.
A reference that resolves to an id absent from the collection is dropped
from both lists (the source logs an error and adds it to neither). -/
def comparePass (db : List Product) : List String → List FormattedProduct × List String
  | [] => ([], [])
  | pid :: rest =>
    let tail := comparePass db rest
    match findMatchingProduct db pid with
    | some realId =>
      match findProductById db realId with
      | some p => (formatProduct p :: tail.1, tail.2)
      | none => tail
    | none => (tail.1, pid :: tail.2)

/-- `ProductDetailsAgent.compare_products`. -/
def compareProducts (db : List Product) (product_ids : List String) : CompareResponse :=
  let pass := comparePass db product_ids
  { total_products := pass.1.length,
    products := pass.1,
    not_found :=
      if pass.2.isEmpty then none
      else some { products := pass.2,
                  available_products := (availableProducts db).map fun p => p.name } }

/-! ### Error boundaries (Responder / Router / orchestrator catch clauses) -/

/-- The fixed apology returned by `RouterAgent.process_message`'s except
clause (and by `BaseAgent.process_message`'s). -/
def routerApology : String :=
  "I apologize, but I encountered an error processing your request. Please try again."

/-- The except clause of the three specialized responders
(`ProductDetailsAgent` / `ReviewsAgent` / `OrdersAgent`
`.process_message`): the apology has `str(e)` appended.  The body's
outcome (LLM calls plus tool execution) is abstracted as an `Except`
value, since it is external I/O. -/
def responderProcessMessage (body : Except String String) : String :=
  match body with
  | .ok reply => reply
  | .error e => "I apologize, but I encountered an error processing your request: " ++ e

/-- `RouterAgent.process_message`: the routing pipeline (classification
LLM call, argument parsing, agent instantiation) is abstracted as an
`Except` value carrying the chosen agent identity; on success the chosen
responder's reply (itself always a plain string) is returned, and any
failure inside the try block yields the fixed apology. -/
def routerProcessMessage (routing : Except String String)
    (delegate : String → String) : String :=
  match routing with
  | .ok agentType => delegate agentType
  | .error _ => routerApology

/-! ### Session orchestrator (`CustomerSupportSystem`, src/main.py) -/

/-- One `{role, content}` conversation entry. -/
structure Turn where
  role : String
  content : String
deriving Repr, DecidableEq

/-- The `conversation_history` dict: insertion-ordered session-id/history
pairs with Python dict update semantics. -/
abbrev SessionMap := List (String × List Turn)

/-- Dict lookup `conversation_history.get(sid)`. -/
def lookupSession (m : SessionMap) (sid : String) : Option (List Turn) :=
  (m.find? fun e => e.1 == sid).map fun e => e.2

/-- Dict assignment `conversation_history[sid] = h`: replace in place if
the key exists, else append the new entry. -/
def setSession (m : SessionMap) (sid : String) (h : List Turn) : SessionMap :=
  match m with
  | [] => [(sid, h)]
  | e :: rest => if e.1 == sid then (sid, h) :: rest else e :: setSession rest sid h

/-- The `if session_id not in self.conversation_history` initialization
at the top of `process_query`. -/
def ensureSession (m : SessionMap) (sid : String) : SessionMap :=
  if (lookupSession m sid).isSome then m else setSession m sid []

/-- `context["history"] = self.conversation_history[session_id][-5:]`
(src/main.py): the last five turns. -/
def contextFor (history : List Turn) : List Turn := takeLast 5 history

/-- `messages[1:1] = context['history'][-3:]` (src/agents/router_agent.py):
the router splices only the last three context turns into its prompt. -/
def routingContext (ctx : List Turn) : List Turn := takeLast 3 ctx

/-- `CustomerSupportSystem.process_query`.  The router call is a function
of the context actually supplied, so context usage stays visible; its
`.ok` is the router's returned text (`RouterAgent.process_message` catches
every internal failure itself), while `.error` models an exception
escaping the router call, handled by the orchestrator's catch-all. -/
def processQuery (routerCall : List Turn → Except String String)
    (m : SessionMap) (sid msg : String) : String × SessionMap :=
  let m1 := ensureSession m sid
  let hist := (lookupSession m1 sid).getD []
  match routerCall (contextFor hist) with
  | .ok resp =>
    (resp, setSession m1 sid (hist ++ [⟨"user", msg⟩, ⟨"assistant", resp⟩]))
  | .error e => ("An error occurred: " ++ e, m1)

/-- `CustomerSupportSystem.clear_conversation`:
`self.conversation_history[session_id] = []`. -/
def clearConversation (m : SessionMap) (sid : String) : SessionMap :=
  setSession m sid []

/-- One full turn as the transport sees it: the orchestrator around the
router around a specialized responder.  `routing` is the router
pipeline's outcome, `body` the chosen responder's internal outcome.  The
router call is wrapped in `.ok` because `RouterAgent.process_message`
returns text on every path. -/
def fullTurn (routing : Except String String) (body : String → Except String String)
    (m : SessionMap) (sid msg : String) : String × SessionMap :=
  processQuery
    (fun _ => .ok (routerProcessMessage routing
      fun agentType => responderProcessMessage (body agentType)))
    m sid msg

/-- Concrete review fixture used to evaluate the statistics theorems. -/
def sampleDreamReviews : List ReviewDoc :=
  [{ product_id := "dream-sleep", customer_id := some "ana", rating := some 5,
     content := some "great", verified_purchase := some true, created_at := none },
   { product_id := "dream-sleep", customer_id := some "bob", rating := some 3,
     content := some "fine", verified_purchase := some false, created_at := none }]

/-! ### Helper lemmas -/

theorem lookupSession_set_same (m : SessionMap) (sid : String) (h : List Turn) :
    lookupSession (setSession m sid h) sid = some h := by
  induction m with
  | nil => simp [setSession, lookupSession]
  | cons e rest ih =>
    cases hb : (e.1 == sid) with
    | true => simp [setSession, hb, lookupSession]
    | false =>
      simp only [setSession, hb, Bool.false_eq_true, if_false]
      simpa [lookupSession, List.find?, hb] using ih

theorem lookupSession_set_other (m : SessionMap) (sid sid2 : String) (h : List Turn)
    (hne : sid2 ≠ sid) :
    lookupSession (setSession m sid h) sid2 = lookupSession m sid2 := by
  have hb2 : (sid == sid2) = false := by
    simp [beq_eq_false_iff_ne]
    exact fun he => hne he.symm
  induction m with
  | nil => simp [setSession, lookupSession, List.find?, hb2]
  | cons e rest ih =>
    cases hb : (e.1 == sid) with
    | true =>
      have he1 : e.1 = sid := by simpa [beq_iff_eq] using hb
      simp [setSession, hb, lookupSession, List.find?, hb2, he1]
    | false =>
      simp only [setSession, hb, Bool.false_eq_true, if_false]
      cases hc : (e.1 == sid2) with
      | true => simp [lookupSession, List.find?, hc]
      | false => simpa [lookupSession, List.find?, hc] using ih

theorem takeLast_length_le {α : Type} (n : Nat) (l : List α) :
    (takeLast n l).length ≤ n := by
  simp only [takeLast, List.length_drop]
  omega

theorem takeLast_suffix {α : Type} (n : Nat) (l : List α) : takeLast n l <:+ l :=
  List.drop_suffix _ _

theorem suffix_takeLast_append {α : Type} (n : Nat) (l s : List α)
    (hsn : s.length ≤ n) : s <:+ takeLast n (l ++ s) := by
  unfold takeLast
  rw [List.length_append]
  have hk : l.length + s.length - n ≤ l.length := by omega
  rw [List.drop_append_of_le_length hk]
  exact ⟨l.drop (l.length + s.length - n), rfl⟩

theorem findMatchingProduct_exact_first (products : List Product) (r : String)
    (hr : r ≠ "")
    (hex : (availableProducts products).any (fun p => exactMatch (normalizeRef r) p) = true) :
    ∃ p, p ∈ availableProducts products ∧ exactMatch (normalizeRef r) p = true ∧
      findMatchingProduct products r = some p.id := by
  have h1 : ((availableProducts products).find? (fun p => exactMatch (normalizeRef r) p)).isSome := by
    rw [List.find?_isSome]
    simpa [List.any_eq_true] using hex
  obtain ⟨p, hp⟩ := Option.isSome_iff_exists.mp h1
  refine ⟨p, List.mem_of_find?_eq_some hp, List.find?_some hp, ?_⟩
  simp only [findMatchingProduct, if_neg hr, hp]

theorem findMatchingProduct_mem (db : List Product) (r : String) (i : String)
    (h : findMatchingProduct db r = some i) : ∃ p ∈ db, p.id = i := by
  by_cases hr : r = ""
  · simp [findMatchingProduct, hr] at h
  · simp only [findMatchingProduct, if_neg hr] at h
    cases h1 : (availableProducts db).find? (fun p => exactMatch (normalizeRef r) p) with
    | some c =>
      simp only [h1, Option.some.injEq] at h
      have hc : c ∈ availableProducts db := List.mem_of_find?_eq_some h1
      obtain ⟨q, hq, rfl⟩ := List.mem_map.mp hc
      exact ⟨q, hq, h⟩
    | none =>
      simp only [h1] at h
      cases h2 : (availableProducts db).find? (fun p => secondPassMatch (normalizeRef r) p) with
      | none => simp [h2] at h
      | some c =>
        simp only [h2, Option.map_some', Option.some.injEq] at h
        have hc : c ∈ availableProducts db := List.mem_of_find?_eq_some h2
        obtain ⟨q, hq, rfl⟩ := List.mem_map.mp hc
        exact ⟨q, hq, h⟩

theorem findProductById_isSome_of_resolved (db : List Product) (r i : String)
    (h : findMatchingProduct db r = some i) : (findProductById db i).isSome := by
  obtain ⟨p, hp, hpi⟩ := findMatchingProduct_mem db r i h
  rw [findProductById, List.find?_isSome]
  exact ⟨p, hp, by simp [hpi]⟩

theorem comparePass_snd (db : List Product) (refs : List String) :
    (comparePass db refs).2 = refs.filter fun r => (findMatchingProduct db r).isNone := by
  induction refs with
  | nil => rfl
  | cons pid rest ih =>
    simp only [comparePass]
    cases hm : findMatchingProduct db pid with
    | none => simp [List.filter_cons, hm, ih]
    | some realId =>
      cases hf : findProductById db realId with
      | none => simp [List.filter_cons, hm, hf, ih]
      | some p => simp [List.filter_cons, hm, hf, ih]

theorem comparePass_fst_length (db : List Product) (refs : List String) :
    (comparePass db refs).1.length =
      (refs.filter fun r => (findMatchingProduct db r).isSome).length := by
  induction refs with
  | nil => rfl
  | cons pid rest ih =>
    simp only [comparePass]
    cases hm : findMatchingProduct db pid with
    | none => simp [List.filter_cons, hm, ih]
    | some realId =>
      have hs := findProductById_isSome_of_resolved db pid realId hm
      obtain ⟨p, hp⟩ := Option.isSome_iff_exists.mp hs
      simp [List.filter_cons, hm, hp, ih]

theorem comparePass_mem_fst (db : List Product) (refs : List String) (pid i : String)
    (hpid : pid ∈ refs) (hres : findMatchingProduct db pid = some i) :
    ∃ p, findProductById db i = some p ∧ formatProduct p ∈ (comparePass db refs).1 := by
  induction refs with
  | nil => cases hpid
  | cons q rest ih =>
    rcases List.mem_cons.mp hpid with hq | hq
    · subst hq
      obtain ⟨p, hp⟩ := Option.isSome_iff_exists.mp
        (findProductById_isSome_of_resolved db pid i hres)
      refine ⟨p, hp, ?_⟩
      simp [comparePass, hres, hp]
    · obtain ⟨p, hp, hmem⟩ := ih hq
      refine ⟨p, hp, ?_⟩
      cases hm : findMatchingProduct db q with
      | none =>
        simp only [comparePass, hm]
        exact hmem
      | some realId =>
        cases hf : findProductById db realId with
        | none =>
          simp only [comparePass, hm, hf]
          exact hmem
        | some p2 =>
          simp only [comparePass, hm, hf]
          exact List.mem_cons_of_mem _ hmem

theorem count_buckets (l : List Int) (h : ∀ x ∈ l, 1 ≤ x ∧ x ≤ 5) :
    (l.filter (fun r => r == 5)).length + (l.filter (fun r => r == 4)).length +
      (l.filter (fun r => r == 3)).length + (l.filter (fun r => r == 2)).length +
      (l.filter (fun r => r == 1)).length = l.length := by
  induction l with
  | nil => rfl
  | cons x rest ih =>
    have hx := h x (List.mem_cons_self x rest)
    have hrest : ∀ y ∈ rest, 1 ≤ y ∧ y ≤ 5 := fun y hy => h y (List.mem_cons_of_mem x hy)
    have hsum := ih hrest
    have h15 : x = 1 ∨ x = 2 ∨ x = 3 ∨ x = 4 ∨ x = 5 := by omega
    rcases h15 with h1 | h1 | h1 | h1 | h1 <;> subst h1 <;>
      simp only [List.filter_cons, List.length_cons] <;> norm_num <;> omega

/-! ### Claim C1 -/

/-- Claim C1, counterexample: the specialized-responder boundary does not
produce a fixed apology string — the apology it returns has the raw error
text appended and therefore varies with the error, so the raw error is
surfaced to the end user. -/
theorem C1_counterexample :
    responderProcessMessage (Except.error "E1") =
      "I apologize, but I encountered an error processing your request: E1" ∧
    responderProcessMessage (Except.error "E1") ≠ responderProcessMessage (Except.error "E2") := by
  exact ⟨rfl, by decide⟩

/-- Claim C1, amended: every failure during a turn is caught at the
Responder or Router boundary and turned into user-facing apology text, and
nothing propagates to the Session Orchestrator as an unhandled error, so
the transport always receives text — but the specialized Responder
boundary appends the raw error message to its apology instead of
returning a fixed string (only the Router and BaseAgent boundaries use a
fixed apology).  A full turn yields exactly one of: the normal reply, the
fixed Router apology, or the responder apology carrying the raw error. -/
theorem C1_every_failure_becomes_text (routing : Except String String)
    (body : String → Except String String) (m : SessionMap) (sid msg : String) :
    (∃ e, routing = Except.error e ∧ (fullTurn routing body m sid msg).1 = routerApology) ∨
    (∃ a reply, routing = Except.ok a ∧ body a = Except.ok reply ∧
      (fullTurn routing body m sid msg).1 = reply) ∨
    (∃ a e, routing = Except.ok a ∧ body a = Except.error e ∧
      (fullTurn routing body m sid msg).1 =
        "I apologize, but I encountered an error processing your request: " ++ e) := by
  cases routing with
  | error e => exact Or.inl ⟨e, rfl, rfl⟩
  | ok a =>
    cases hb : body a with
    | ok reply =>
      refine Or.inr (Or.inl ⟨a, reply, rfl, hb, ?_⟩)
      simp [fullTurn, processQuery, routerProcessMessage, responderProcessMessage, hb]
    | error e =>
      refine Or.inr (Or.inr ⟨a, e, rfl, hb, ?_⟩)
      simp [fullTurn, processQuery, routerProcessMessage, responderProcessMessage, hb]

/-! ### Claim C2 -/

/-- Claim C2, counterexample: a failure during responding (here an LLM
failure inside the chosen responder) is caught below the orchestrator and
returned as apology text, so process_query treats the turn as a success
and does append it to the session history — contradicting the claim that
on a responding failure the history is not mutated for that turn. -/
theorem C2_counterexample :
    (processQuery (fun _ => Except.ok (responderProcessMessage (Except.error "LLM timeout")))
        [] "s1" "hi").1 =
      "I apologize, but I encountered an error processing your request: LLM timeout" ∧
    lookupSession (processQuery
        (fun _ => Except.ok (responderProcessMessage (Except.error "LLM timeout")))
        [] "s1" "hi").2 "s1" =
      some [⟨"user", "hi"⟩,
        ⟨"assistant", "I apologize, but I encountered an error processing your request: LLM timeout"⟩] := by
  exact ⟨rfl, rfl⟩

/-- Claim C2, amended: on success process_query appends exactly the pair
(user, message) then (assistant, reply) to the session history and returns
the reply.  Failures during routing or responding are caught inside the
Router or Responder and arrive as successful apology text, which is
appended like any reply; only an exception escaping the router call leaves
the turn sequence unmutated, and then the returned string is
"An error occurred: " followed by the raw error, not a generic apology. -/
theorem C2_process_query (rc : List Turn → Except String String)
    (m : SessionMap) (sid msg : String) :
    (∀ reply, rc (contextFor ((lookupSession (ensureSession m sid) sid).getD [])) = Except.ok reply →
      (processQuery rc m sid msg).1 = reply ∧
      lookupSession (processQuery rc m sid msg).2 sid =
        some (((lookupSession (ensureSession m sid) sid).getD []) ++
          [⟨"user", msg⟩, ⟨"assistant", reply⟩])) ∧
    (∀ e, rc (contextFor ((lookupSession (ensureSession m sid) sid).getD [])) = Except.error e →
      (processQuery rc m sid msg).1 = "An error occurred: " ++ e ∧
      (processQuery rc m sid msg).2 = ensureSession m sid) := by
  constructor
  · intro reply h
    constructor
    · simp [processQuery, h]
    · simp [processQuery, h, lookupSession_set_same]
  · intro e h
    exact ⟨by simp [processQuery, h], by simp [processQuery, h]⟩

/-- Witness for C2_process_query at a concrete successful turn. -/
theorem C2_process_query_witness :
    (processQuery (fun _ => Except.ok "hello") [] "s" "hi").1 = "hello" ∧
    lookupSession (processQuery (fun _ => Except.ok "hello") [] "s" "hi").2 "s" =
      some [⟨"user", "hi"⟩, ⟨"assistant", "hello"⟩] := by
  have h := (C2_process_query (fun _ => Except.ok "hello") [] "s" "hi").1 "hello" rfl
  exact ⟨h.1, by rw [h.2]; rfl⟩

/-! ### Claim C3 -/

/-- Claim C3, counterexample: the four matching steps are not applied in
strict global precedence order.  In a catalog where the reference equals
the first product's full name and the second product's id, step 1 (exact
id match) should win under the claimed ordering and return the second
product, but the code scans product by product and returns the first
product via its name match. -/
theorem C3_counterexample :
    findMatchingProduct orderingCatalog "foo" = some "x" ∧
    findMatchingProductStrict orderingCatalog "foo" = some "foo" := by
  exact ⟨by decide, by decide⟩

/-- Claim C3, amended: resolution makes two passes over the catalog in
order — the first pass returns the first product matching the reference
exactly (case-insensitive id or full name, id checked before name per
product), and only when no product matches exactly does the second pass
return the first product matching partially (hyphen-normalized reference,
with every "-mattress" removed, contained in the id, else at least 50%
token overlap with the name; containment checked before overlap per
product).  Exact matches therefore take precedence over partial matches
globally, but the steps within a pass are ordered per product, not
globally.  Given the seeded catalog, "Ultra Comfort" still resolves to
ultra-comfort-mattress. -/
theorem C3_resolution :
    (∀ (products : List Product) (r : String), r ≠ "" →
      (availableProducts products).any (fun p => exactMatch (normalizeRef r) p) = true →
      ∃ p, p ∈ availableProducts products ∧ exactMatch (normalizeRef r) p = true ∧
        findMatchingProduct products r = some p.id) ∧
    findMatchingProduct seedProducts "Ultra Comfort" = some "ultra-comfort-mattress" := by
  exact ⟨findMatchingProduct_exact_first, by decide⟩

/-- Witness for C3_resolution: the seeded catalog contains an exact match
for the reference "eco-green", and resolution returns it. -/
theorem C3_resolution_witness :
    ∃ p, p ∈ availableProducts seedProducts ∧
      exactMatch (normalizeRef "eco-green") p = true ∧
      findMatchingProduct seedProducts "eco-green" = some p.id :=
  C3_resolution.1 seedProducts "eco-green" (by decide) (by decide)

/-! ### Claim C4 -/

/-- Claim C4: for a product that exists under the given id, create_review
succeeds exactly when 1 ≤ rating ≤ 5; an out-of-range rating fails with
the validation error "Rating must be between 1 and 5" and writes no review
document to the store. -/
theorem C4_create_review (products : List Product) (reviews : List ReviewDoc)
    (pid : String) (r : Int) (content now : String)
    (hp : (findProductById products pid).isSome = true) :
    ((createReview products reviews pid r content now).1.isOk = true ↔ (1 ≤ r ∧ r ≤ 5)) ∧
    (¬(1 ≤ r ∧ r ≤ 5) →
      (createReview products reviews pid r content now).1 =
        Except.error "Rating must be between 1 and 5" ∧
      (createReview products reviews pid r content now).2 = reviews) := by
  have hres : resolveReviewPid products pid = some pid := by
    obtain ⟨p, hp2⟩ := Option.isSome_iff_exists.mp hp
    simp [resolveReviewPid, findProductById] at hp2 ⊢
    rw [hp2]
  constructor
  · constructor
    · intro hok
      by_contra hrange
      simp [createReview, hrange, Except.isOk, Except.toBool] at hok
    · intro hrange
      simp [createReview, hrange, hres, Except.isOk, Except.toBool]
  · intro hrange
    exact ⟨by simp [createReview, hrange], by simp [createReview, hrange]⟩

/-- Witness for C4_create_review: on the seeded catalog, rating 6 fails
with the validation error and leaves the store unchanged, rating 0 also
fails, and rating 3 succeeds. -/
theorem C4_create_review_witness :
    ((createReview seedProducts [] "eco-green" 6 "nice" "t").1 =
        Except.error "Rating must be between 1 and 5" ∧
      (createReview seedProducts [] "eco-green" 6 "nice" "t").2 = []) ∧
    ¬((createReview seedProducts [] "eco-green" 0 "bad" "t").1.isOk = true) ∧
    (createReview seedProducts [] "eco-green" 3 "solid" "t").1.isOk = true := by
  refine ⟨(C4_create_review seedProducts [] "eco-green" 6 "nice" "t" (by decide)).2 (by omega),
    ?_, ?_⟩
  · intro h
    have := ((C4_create_review seedProducts [] "eco-green" 0 "bad" "t" (by decide)).1).mp h
    omega
  · exact ((C4_create_review seedProducts [] "eco-green" 3 "solid" "t" (by decide)).1).mpr
      (by omega)

/-! ### Claim C5 -/

/-- Claim C5: create_order fails with the product-not-found error when no
product has the given id, fails with the size-unavailable error when the
product exists but the size is not among its available sizes, and
otherwise succeeds with the generated order id, the computed total
(price times quantity) and the fixed delivery estimate; in the seeded
catalog, eco-green succeeds for Twin XL and fails for California King.
Failed calls leave the orders store unchanged. -/
theorem C5_create_order (products : List Product) (orders : List OrderDoc)
    (pid size addr pay : String) (qty : Int) (ts : String) :
    ((findProductById products pid = none →
        (createOrder products orders pid size addr pay qty ts).1 =
          Except.error ("Product not found: " ++ pid) ∧
        (createOrder products orders pid size addr pay qty ts).2 = orders) ∧
      (∀ p, findProductById products pid = some p →
        p.available_sizes.contains size = false →
        (createOrder products orders pid size addr pay qty ts).1 =
          Except.error ("Size " ++ size ++ " not available for " ++ p.name) ∧
        (createOrder products orders pid size addr pay qty ts).2 = orders) ∧
      (∀ p, findProductById products pid = some p →
        p.available_sizes.contains size = true →
        (createOrder products orders pid size addr pay qty ts).1 =
          Except.ok { success := true, order_id := generateOrderId ts,
                      total := p.price * (qty : ℚ), status := "confirmed",
                      delivery_address := addr, payment_method := pay,
                      estimated_delivery := "5-7 business days" })) ∧
    (createOrder seedProducts orders "eco-green" "Twin XL" addr pay qty ts).1.isOk = true ∧
    (createOrder seedProducts orders "eco-green" "California King" addr pay qty ts).1 =
      Except.error "Size California King not available for Eco Green Mattress" := by
  refine ⟨⟨?_, ?_, ?_⟩, rfl, rfl⟩
  · intro h
    exact ⟨by simp [createOrder, h], by simp [createOrder, h]⟩
  · intro p hp hc
    have hc2 : size ∉ p.available_sizes := by simpa using hc
    exact ⟨by simp [createOrder, hp, hc2], by simp [createOrder, hp, hc2]⟩
  · intro p hp hc
    have hc2 : size ∈ p.available_sizes := by simpa using hc
    simp [createOrder, hp, hc2]

/-- Witness for C5_create_order at concrete inputs: an unknown product id
fails with the product-not-found error, the eco-green Twin XL order
succeeds, and the eco-green California King order fails with the
size-unavailable error. -/
theorem C5_create_order_witness :
    (createOrder seedProducts [] "no-such" "Twin" "12 Main St" "credit_card" 1 "20250101000000").1 =
      Except.error "Product not found: no-such" ∧
    (createOrder seedProducts [] "eco-green" "Twin XL" "12 Main St" "credit_card" 1 "20250101000000").1.isOk = true ∧
    (createOrder seedProducts [] "eco-green" "California King" "12 Main St" "credit_card" 1 "20250101000000").1 =
      Except.error "Size California King not available for Eco Green Mattress" := by
  refine ⟨?_, ?_, ?_⟩
  · exact ((C5_create_order seedProducts [] "no-such" "Twin" "12 Main St" "credit_card"
      1 "20250101000000").1.1 (by decide)).1
  · exact (C5_create_order seedProducts [] "eco-green" "Twin XL" "12 Main St" "credit_card"
      1 "20250101000000").2.1
  · exact (C5_create_order seedProducts [] "eco-green" "California King" "12 Main St"
      "credit_card" 1 "20250101000000").2.2

/-! ### Claim C6 -/

/-- Claim C6: get_product_reviews with the positive filter returns exactly
the fetched reviews whose rating is at least 4 (formatted), every returned
review has rating at least 4, total_reviews is the size of that filtered
subset, average_rating is computed over only the filtered subset (0 when
it is empty), and an unknown product or a product with no reviews yields
the zero-count empty result rather than an error. -/
theorem C6_positive_reviews (products : List Product) (reviews : List ReviewDoc)
    (pid : String) :
    ((getProductReviews products reviews pid "positive").reviews =
      ((fetchReviews products reviews pid).filter
        (fun r => decide (4 ≤ docRating r))).map formatReview) ∧
    (∀ fr ∈ (getProductReviews products reviews pid "positive").reviews, 4 ≤ fr.rating) ∧
    ((getProductReviews products reviews pid "positive").total_reviews =
      ((fetchReviews products reviews pid).filter (fun r => decide (4 ≤ docRating r))).length) ∧
    ((getProductReviews products reviews pid "positive").average_rating =
      (if ((fetchReviews products reviews pid).filter
            (fun r => decide (4 ≤ docRating r))).isEmpty then 0
       else ((((fetchReviews products reviews pid).filter
                (fun r => decide (4 ≤ docRating r))).map docRating).sum : ℚ) /
         ((((fetchReviews products reviews pid).filter
              (fun r => decide (4 ≤ docRating r))).length : ℚ)))) ∧
    (fetchReviews products reviews pid = [] →
      (getProductReviews products reviews pid "positive").total_reviews = 0 ∧
      (getProductReviews products reviews pid "positive").reviews = [] ∧
      (getProductReviews products reviews pid "positive").average_rating = 0) := by
  refine ⟨rfl, ?_, rfl, rfl, ?_⟩
  · intro fr hfr
    simp only [getProductReviews, if_pos rfl] at hfr
    obtain ⟨r, hr, rfl⟩ := List.mem_map.mp hfr
    have h4 : decide (4 ≤ docRating r) = true := (List.mem_filter.mp hr).2
    simpa [formatReview] using of_decide_eq_true h4
  · intro h
    simp [getProductReviews, h]

/-- Witness for C6_positive_reviews: an unknown product yields the empty
zero-count result. -/
theorem C6_positive_reviews_witness :
    (getProductReviews seedProducts [] "no-such" "positive").total_reviews = 0 ∧
    (getProductReviews seedProducts [] "no-such" "positive").reviews = [] ∧
    (getProductReviews seedProducts [] "no-such" "positive").average_rating = 0 :=
  (C6_positive_reviews seedProducts [] "no-such").2.2.2.2 (by decide)

/-! ### Claim C7 -/

/-- Claim C7: the orchestrator supplies the selected responder with at
most the last five turns of the session history as context, the router
splices at most the last three of those turns into its routing prompt
(each window a suffix of what it is taken from), and after a successful
first turn the context built for the second turn of the same session
contains the first turn user message and assistant reply. -/
theorem C7_context_windows :
    (∀ hist : List Turn,
      (contextFor hist).length ≤ 5 ∧ contextFor hist <:+ hist ∧
      (routingContext (contextFor hist)).length ≤ 3 ∧
      routingContext (contextFor hist) <:+ contextFor hist) ∧
    (∀ (m : SessionMap) (sid msg1 reply1 : String),
      (⟨"user", msg1⟩ : Turn) ∈ contextFor
        ((lookupSession (processQuery (fun _ => Except.ok reply1) m sid msg1).2 sid).getD []) ∧
      (⟨"assistant", reply1⟩ : Turn) ∈ contextFor
        ((lookupSession (processQuery (fun _ => Except.ok reply1) m sid msg1).2 sid).getD [])) := by
  constructor
  · intro hist
    exact ⟨takeLast_length_le 5 hist, takeLast_suffix 5 hist,
      takeLast_length_le 3 _, takeLast_suffix 3 _⟩
  · intro m sid msg1 reply1
    have hlook : lookupSession (processQuery (fun _ => Except.ok reply1) m sid msg1).2 sid =
        some (((lookupSession (ensureSession m sid) sid).getD []) ++
          [⟨"user", msg1⟩, ⟨"assistant", reply1⟩]) := by
      simp [processQuery, lookupSession_set_same]
    rw [hlook]
    have hsuf : [(⟨"user", msg1⟩ : Turn), ⟨"assistant", reply1⟩] <:+
        contextFor (((lookupSession (ensureSession m sid) sid).getD []) ++
          [⟨"user", msg1⟩, ⟨"assistant", reply1⟩]) :=
      suffix_takeLast_append 5 _ _ (by simp)
    exact ⟨hsuf.subset (by simp), hsuf.subset (by simp)⟩

/-! ### Claim C8 -/

/-- Claim C8: compare_products never fails on a nonempty list of
references — every reference that does not resolve appears in the
not_found products (together with the full list of available product
names), every reference that resolves contributes the formatted record of
the matched catalog product to the products list, total_products equals
the number of references that resolve (which is the length of the
products list), and not_found is absent when every reference resolves. -/
theorem C8_compare_products (db : List Product) (refs : List String) (_hne : refs ≠ []) :
    (compareProducts db refs).total_products =
      (refs.filter (fun r => (findMatchingProduct db r).isSome)).length ∧
    (compareProducts db refs).products.length = (compareProducts db refs).total_products ∧
    (∀ r ∈ refs, findMatchingProduct db r = none →
      ∃ nf, (compareProducts db refs).not_found = some nf ∧ r ∈ nf.products ∧
        nf.available_products = (availableProducts db).map (fun p => p.name)) ∧
    (∀ r ∈ refs, ∀ i, findMatchingProduct db r = some i →
      ∃ p, findProductById db i = some p ∧
        formatProduct p ∈ (compareProducts db refs).products) ∧
    ((∀ r ∈ refs, (findMatchingProduct db r).isSome) →
      (compareProducts db refs).not_found = none) := by
  refine ⟨?_, ?_, ?_, ?_, ?_⟩
  · simpa [compareProducts] using comparePass_fst_length db refs
  · rfl
  · intro r hr hnone
    have hmem : r ∈ (comparePass db refs).2 := by
      rw [comparePass_snd]
      exact List.mem_filter.mpr ⟨hr, by simp [hnone]⟩
    have hne2 : (comparePass db refs).2.isEmpty = false := by
      cases hsnd : (comparePass db refs).2 with
      | nil => rw [hsnd] at hmem; cases hmem
      | cons a l => simp
    refine ⟨⟨(comparePass db refs).2, (availableProducts db).map (fun p => p.name)⟩,
      ?_, hmem, rfl⟩
    simp [compareProducts, hne2]
  · intro r hr i hi
    obtain ⟨p, hp, hmem⟩ := comparePass_mem_fst db refs r i hr hi
    exact ⟨p, hp, hmem⟩
  · intro hall
    have hsnd : (comparePass db refs).2 = [] := by
      rw [comparePass_snd]
      refine List.filter_eq_nil_iff.mpr ?_
      intro r hr
      have := hall r hr
      simp [Option.isNone_iff_eq_none]
      exact Option.isSome_iff_ne_none.mp this
    simp [compareProducts, hsnd]

/-- Witness for C8_compare_products on the seeded catalog with one
resolvable and one unresolvable reference. -/
theorem C8_compare_products_witness :
    (compareProducts seedProducts ["eco-green", "no-such"]).total_products =
      ((["eco-green", "no-such"] : List String).filter
        (fun r => (findMatchingProduct seedProducts r).isSome)).length ∧
    (∃ nf, (compareProducts seedProducts ["eco-green", "no-such"]).not_found = some nf ∧
      "no-such" ∈ nf.products ∧
      nf.available_products = (availableProducts seedProducts).map (fun p => p.name)) :=
  ⟨(C8_compare_products seedProducts ["eco-green", "no-such"] (by decide)).1,
   (C8_compare_products seedProducts ["eco-green", "no-such"] (by decide)).2.2.1 "no-such"
     (by decide) (by decide)⟩

/-! ### Claim C9 -/

/-- Claim C9: for every session id, including one with no prior history,
clear_conversation sets that session entry to the empty sequence (the
entry remains present, not deleted) without modifying any other session,
the context built on the cleared history is empty, and a subsequent
message on that session still resolves through the router and yields the
responder reply, appending the new turn pair to the now-empty history. -/
theorem C9_clear_conversation (m : SessionMap) (sid : String) :
    lookupSession (clearConversation m sid) sid = some [] ∧
    (∀ sid2, sid2 ≠ sid →
      lookupSession (clearConversation m sid) sid2 = lookupSession m sid2) ∧
    contextFor ((lookupSession (clearConversation m sid) sid).getD []) = [] ∧
    (∀ agentType reply msg : String,
      (processQuery (fun _ => Except.ok (routerProcessMessage (Except.ok agentType)
          (fun _ => responderProcessMessage (Except.ok reply))))
        (clearConversation m sid) sid msg).1 = reply ∧
      lookupSession (processQuery (fun _ => Except.ok (routerProcessMessage (Except.ok agentType)
          (fun _ => responderProcessMessage (Except.ok reply))))
        (clearConversation m sid) sid msg).2 sid =
        some [⟨"user", msg⟩, ⟨"assistant", reply⟩]) := by
  have hsame := lookupSession_set_same m sid []
  refine ⟨hsame, ?_, ?_, ?_⟩
  · intro sid2 hne
    exact lookupSession_set_other m sid sid2 [] hne
  · rw [clearConversation, hsame]
    rfl
  · intro agentType reply msg
    constructor
    · simp [processQuery, routerProcessMessage, responderProcessMessage, ensureSession,
        clearConversation, hsame]
    · simp [processQuery, routerProcessMessage, responderProcessMessage, ensureSession,
        clearConversation, hsame, lookupSession_set_same]

/-- Witness for C9_clear_conversation: clearing one session leaves the
other session untouched, and a following message gets the normal reply. -/
theorem C9_clear_conversation_witness :
    lookupSession (clearConversation [("other", [⟨"user", "x"⟩])] "s") "s" = some [] ∧
    lookupSession (clearConversation [("other", [⟨"user", "x"⟩])] "s") "other" =
      lookupSession [("other", [⟨"user", "x"⟩])] "other" ∧
    (processQuery (fun _ => Except.ok (routerProcessMessage (Except.ok "orders")
        (fun _ => responderProcessMessage (Except.ok "done"))))
      (clearConversation [("other", [⟨"user", "x"⟩])] "s") "s" "hi").1 = "done" :=
  ⟨(C9_clear_conversation [("other", [⟨"user", "x"⟩])] "s").1,
   (C9_clear_conversation [("other", [⟨"user", "x"⟩])] "s").2.1 "other" (by decide),
   ((C9_clear_conversation [("other", [⟨"user", "x"⟩])] "s").2.2.2 "orders" "done" "hi").1⟩

/-! ### Claim C10 -/

/-- Claim C10: when every fetched review for a product has an integer
rating in the range 1..5, get_review_stats returns the stats payload whose
five distribution buckets sum to total_reviews, whose average_rating is
the sum of the ratings divided by total_reviews, and whose
verified_purchases count is at most total_reviews; when no reviews are
found it returns the zero-count no-reviews payload instead of failing. -/
theorem C10_review_stats (products : List Product) (reviews : List ReviewDoc)
    (pid : String) :
    (fetchReviews products reviews pid = [] →
      getReviewStats products reviews pid =
        ReviewStatsResult.noReviews pid 0 "No reviews found for this product") ∧
    ((∀ r ∈ fetchReviews products reviews pid, 1 ≤ docRating r ∧ docRating r ≤ 5) →
      fetchReviews products reviews pid ≠ [] →
      ∃ dist ver,
        getReviewStats products reviews pid =
          ReviewStatsResult.stats pid (fetchReviews products reviews pid).length
            ((((fetchReviews products reviews pid).map docRating).sum : ℚ) /
              ((fetchReviews products reviews pid).length : ℚ)) dist ver ∧
        dist.one_star + dist.two_star + dist.three_star + dist.four_star + dist.five_star =
          (fetchReviews products reviews pid).length ∧
        ver ≤ (fetchReviews products reviews pid).length) := by
  constructor
  · intro h
    simp [getReviewStats, h]
  · intro hrange hne
    have hempty : (fetchReviews products reviews pid).isEmpty = false := by
      cases hf : fetchReviews products reviews pid with
      | nil => exact absurd hf hne
      | cons a l => simp
    refine ⟨{ five_star := (((fetchReviews products reviews pid).map docRating).filter
                  (fun r => r == 5)).length,
              four_star := (((fetchReviews products reviews pid).map docRating).filter
                  (fun r => r == 4)).length,
              three_star := (((fetchReviews products reviews pid).map docRating).filter
                  (fun r => r == 3)).length,
              two_star := (((fetchReviews products reviews pid).map docRating).filter
                  (fun r => r == 2)).length,
              one_star := (((fetchReviews products reviews pid).map docRating).filter
                  (fun r => r == 1)).length },
            ((fetchReviews products reviews pid).filter
              (fun r => r.verified_purchase.getD false)).length, ?_, ?_, ?_⟩
    · simp only [getReviewStats, hempty, Bool.false_eq_true, if_false]
    · have hr : ∀ x ∈ (fetchReviews products reviews pid).map docRating,
          1 ≤ x ∧ x ≤ 5 := by
        intro x hx
        obtain ⟨r, hrm, rfl⟩ := List.mem_map.mp hx
        exact hrange r hrm
      have hsum := count_buckets ((fetchReviews products reviews pid).map docRating) hr
      simp only [List.length_map] at hsum
      simp only []
      omega
    · exact List.length_filter_le _ _

/-- Witness for C10_review_stats on two concrete dream-sleep reviews with
ratings 5 and 3. -/
theorem C10_review_stats_witness :
    ∃ dist ver,
      getReviewStats seedProducts sampleDreamReviews "dream-sleep" =
        ReviewStatsResult.stats "dream-sleep"
          (fetchReviews seedProducts sampleDreamReviews "dream-sleep").length
          ((((fetchReviews seedProducts sampleDreamReviews "dream-sleep").map docRating).sum : ℚ) /
            ((fetchReviews seedProducts sampleDreamReviews "dream-sleep").length : ℚ)) dist ver ∧
      dist.one_star + dist.two_star + dist.three_star + dist.four_star + dist.five_star =
        (fetchReviews seedProducts sampleDreamReviews "dream-sleep").length ∧
      ver ≤ (fetchReviews seedProducts sampleDreamReviews "dream-sleep").length :=
  (C10_review_stats seedProducts sampleDreamReviews "dream-sleep").2
    (by decide) (by decide)

end MongoAgents

